import Mathlib

/-!
Verification of the Mariupol toponymic database import pipeline.

Shallow embedding of the spatial/temporal filter
(src/extract_mariupol_data.py), the entity-type classifiers
(src/import_osm_pbf.py, src/scripts/import/process_osm_data.py), the
language/script derivation for name tags, the conflict-aware name
insertion (ON CONFLICT ... DO NOTHING), the tenacity retry policies, and
the transaction structure of the database load loop
(src/process_osm_data.py).
-/

/-! ## Spatial/temporal filter (src/extract_mariupol_data.py) -/

/-- Bounding box, four rationals, mirroring the MARIUPOL_BBOX dict of
src/extract_mariupol_data.py. -/
structure BBox where
  min_lon : ℚ
  min_lat : ℚ
  max_lon : ℚ
  max_lat : ℚ

/-- MARIUPOL_BBOX from src/extract_mariupol_data.py lines 22-27.  The
rationals are given in reduced constructor form so that the kernel can
evaluate comparisons; `MARIUPOL_BBOX_values` proves they equal the
decimal literals of the source. -/
def MARIUPOL_BBOX : BBox :=
  ⟨⟨3729, 100, by decide, by decide⟩,
   ⟨47, 1, by decide, by decide⟩,
   ⟨944, 25, by decide, by decide⟩,
   ⟨4723, 100, by decide, by decide⟩⟩

/-- An OSM object as seen by MariupolExtractor: a possibly-invalid
location (lon, lat), a timestamp when it converts to a comparable
datetime (epoch seconds; `none` models a value every conversion attempt
fails on), and a tag list. -/
structure OsmObj where
  location : Option (ℚ × ℚ)
  timestamp : Option Int
  tags : List (String × String)

/-- MariupolExtractor._in_bbox: the location must be valid and satisfy
min_lon <= lon <= max_lon and min_lat <= lat <= max_lat. -/
def inBbox (bbox : BBox) (location : Option (ℚ × ℚ)) : Bool :=
  match location with
  | some (lon, lat) =>
      decide (bbox.min_lon ≤ lon) && decide (lon ≤ bbox.max_lon) &&
      decide (bbox.min_lat ≤ lat) && decide (lat ≤ bbox.max_lat)
  | none => false

/-- MariupolExtractor._check_timestamp: no configured target accepts
everything; a timestamp that cannot be converted to a comparable
datetime is accepted ("assume it's current and include it"); otherwise
the object timestamp must be <= the target. -/
def checkTimestamp (target_timestamp : Option Int) (obj_timestamp : Option Int) : Bool :=
  match target_timestamp with
  | none => true
  | some target =>
      match obj_timestamp with
      | none => true
      | some t => decide (t ≤ target)

/-- Python str.lower restricted to the character classes the extractor
meets: ASCII letters and the Cyrillic block used by the keyword list. -/
def lowerChar (c : Char) : Char :=
  if 65 ≤ c.toNat ∧ c.toNat ≤ 90 then Char.ofNat (c.toNat + 32)
  else if 0x410 ≤ c.toNat ∧ c.toNat ≤ 0x42F then Char.ofNat (c.toNat + 32)
  else if 0x400 ≤ c.toNat ∧ c.toNat ≤ 0x40F then Char.ofNat (c.toNat + 80)
  else if c = 'Ґ' then 'ґ'
  else c

def lowerStr (s : String) : String :=
  String.mk (s.toList.map lowerChar)

/-- Leading-segment equality on character lists (helper for the Python
`in` substring operator). -/
def leadEq : List Char → List Char → Bool
  | [], _ => true
  | _ :: _, [] => false
  | a :: as, b :: bs => a == b && leadEq as bs

/-- Python `needle in hay` on strings, as character lists. -/
def hasSub (hay needle : List Char) : Bool :=
  match hay with
  | [] => needle.isEmpty
  | _ :: rest => leadEq needle hay || hasSub rest needle

/-- The keyword list of MariupolExtractor._has_mariupol_tags. -/
def mariupolKeywords : List String :=
  ["mariupol", "маріуполь", "мариуполь",
   "azov", "азов", "азовський",
   "donetsk", "донецьк", "донецкая"]

/-- MariupolExtractor._has_mariupol_tags: some tag value, lowercased,
contains one of the keywords as a substring. -/
def hasMariupolTags (tags : List (String × String)) : Bool :=
  tags.any (fun tag => mariupolKeywords.any (fun keyword =>
    hasSub (lowerStr tag.snd).toList keyword.toList))

/-- MariupolExtractor.node acceptance condition (line 106):
`_check_timestamp(n) and (_in_bbox(n) or _has_mariupol_tags(n))`. -/
def nodeAccept (bbox : BBox) (target_timestamp : Option Int) (n : OsmObj) : Bool :=
  checkTimestamp target_timestamp n.timestamp &&
    (inBbox bbox n.location || hasMariupolTags n.tags)

/-- MariupolExtractor.way acceptance condition (lines 114-116):
`_check_timestamp(w)` and then `_has_mariupol_tags(w)`; no bounding-box
test is applied to ways. -/
def wayAccept (target_timestamp : Option Int) (w : OsmObj) : Bool :=
  checkTimestamp target_timestamp w.timestamp && hasMariupolTags w.tags

/-- MariupolExtractor.relation acceptance condition (line 124). -/
def relationAccept (target_timestamp : Option Int) (r : OsmObj) : Bool :=
  checkTimestamp target_timestamp r.timestamp && hasMariupolTags r.tags

/-- Spec-side spatial predicate: the object carries a valid coordinate
lying inside the bounding box, edges included. -/
def SpatialOk (bbox : BBox) (o : OsmObj) : Prop :=
  ∃ lon lat, o.location = some (lon, lat) ∧
    bbox.min_lon ≤ lon ∧ lon ≤ bbox.max_lon ∧
    bbox.min_lat ≤ lat ∧ lat ≤ bbox.max_lat

/-- Spec-side temporal predicate: whenever a cutoff is configured and
the object timestamp is comparable, the timestamp is at most the
cutoff. -/
def TemporalOk (target_timestamp : Option Int) (o : OsmObj) : Prop :=
  ∀ c t, target_timestamp = some c → o.timestamp = some t → t ≤ c

/-- Spec-side tag-keyword heuristic. -/
def TagHeuristicOk (o : OsmObj) : Prop :=
  hasMariupolTags o.tags = true

/-! ## The database load loop of src/process_osm_data.py (C1)

DataLoader.load_osm_data_to_db executes every INSERT of the run on one
psycopg2 connection in a single transaction: nothing commits until the
`conn.commit()` after the feature loop, and a per-feature exception
handler calls `conn.rollback()`, which aborts the whole open
transaction.  The model folds over the per-feature outcomes carrying the
uncommitted (pending) write set: a successful feature appends its
writes, a failed feature's rollback clears every pending write, and the
final commit publishes whatever is pending at the end of the loop. -/

inductive FeatureOutcome
  | succeeded (writes : List String)
  | failed
deriving DecidableEq

/-- One iteration of the import loop: append on success, `conn.rollback()`
(clearing the whole open transaction) on failure. -/
def loopStep (pending : List String) (f : FeatureOutcome) : List String :=
  match f with
  | .succeeded writes => pending ++ writes
  | .failed => []

/-- The writes committed by the `conn.commit()` after the loop. -/
def committedAfterRun (features : List FeatureOutcome) : List String :=
  features.foldl loopStep []

/-! ## Entity-type classification

Transcribed twice, once from PBFImporter.import_pbf_to_db in
src/import_osm_pbf.py (lines 139-169) and once from
DataLoader.load_osm_data_to_db in src/scripts/import/process_osm_data.py
(lines 158-188); the two Python rule tables are duplicated code, and the
pair of Lean definitions mirrors that duplication so their agreement can
be stated. -/

/-- Python `props[key]` guarded by `key in props`: first value for the
key in the tag/property mapping. -/
def getTag (props : List (String × String)) (key : String) : Option String :=
  (props.find? (fun p => p.fst == key)).map (fun p => p.snd)

/-- Python `key in props`. -/
def hasTag (props : List (String × String)) (key : String) : Bool :=
  (getTag props key).isSome

/-- Python `key in props and props[key] in vals`. -/
def tagValIn (props : List (String × String)) (key : String) (vals : List String) : Bool :=
  match getTag props key with
  | some v => vals.contains v
  | none => false

/-- The ordered rule table of src/import_osm_pbf.py lines 141-156
(initial value 'unknown', first matching branch wins). -/
def pbfMappedEntityType (osm_type : String) (props : List (String × String)) : String :=
  if osm_type == "way" then
    if hasTag props "highway" then "street"
    else if hasTag props "waterway" then "waterway"
    else if hasTag props "footway" || hasTag props "path" then "path"
    else "unknown"
  else if osm_type == "relation" then
    if tagValIn props "admin_level" ["8", "9", "10"] then "district"
    else if tagValIn props "boundary" ["administrative"] then "region"
    else if getTag props "type" == some "multipolygon" then
      if tagValIn props "landuse" ["park"] then "park"
      else if hasTag props "building" || hasTag props "amenity" then "building"
      else "area"
    else "unknown"
  else if osm_type == "node" then
    if tagValIn props "place" ["city"] then "city"
    else if hasTag props "building" then "building"
    else if hasTag props "amenity" || hasTag props "shop" || hasTag props "leisure" then "point_of_interest"
    else if tagValIn props "place" ["town", "village", "hamlet", "suburb", "borough", "neighbourhood"] then "district"
    else "unknown"
  else "unknown"

/-- The geometry-kind fallback of src/import_osm_pbf.py lines 158-164. -/
def pbfGeomFallback (mapped : String) (geom_type : String) : String :=
  if mapped == "unknown" then
    if geom_type == "Point" then "point_of_interest"
    else if geom_type == "LineString" || geom_type == "MultiLineString" then "path"
    else if geom_type == "Polygon" || geom_type == "MultiPolygon" then "area"
    else "unknown"
  else mapped

/-- valid_predefined_types, the hardcoded whitelist of
src/import_osm_pbf.py line 166. -/
def validPredefinedTypes : List String :=
  ["region", "district", "street", "square", "park", "building", "city"]

/-- Final entity type assigned by src/import_osm_pbf.py lines 139-169:
rule table, then geometry fallback, then coercion to
'point_of_interest' of anything outside valid_predefined_types. -/
def pbfFinalEntityType (osm_type : String) (props : List (String × String)) (geom_type : String) : String :=
  if validPredefinedTypes.contains (pbfGeomFallback (pbfMappedEntityType osm_type props) geom_type) then
    pbfGeomFallback (pbfMappedEntityType osm_type props) geom_type
  else "point_of_interest"

/-- The ordered rule table of src/scripts/import/process_osm_data.py
lines 161-176 (textually the same rules as the PBF importer's). -/
def loaderMappedEntityType (osm_type : String) (props : List (String × String)) : String :=
  if osm_type == "way" then
    if hasTag props "highway" then "street"
    else if hasTag props "waterway" then "waterway"
    else if hasTag props "footway" || hasTag props "path" then "path"
    else "unknown"
  else if osm_type == "relation" then
    if tagValIn props "admin_level" ["8", "9", "10"] then "district"
    else if tagValIn props "boundary" ["administrative"] then "region"
    else if getTag props "type" == some "multipolygon" then
      if tagValIn props "landuse" ["park"] then "park"
      else if hasTag props "building" || hasTag props "amenity" then "building"
      else "area"
    else "unknown"
  else if osm_type == "node" then
    if tagValIn props "place" ["city"] then "city"
    else if hasTag props "building" then "building"
    else if hasTag props "amenity" || hasTag props "shop" || hasTag props "leisure" then "point_of_interest"
    else if tagValIn props "place" ["town", "village", "hamlet", "suburb", "borough", "neighbourhood"] then "district"
    else "unknown"
  else "unknown"

/-- The geometry-kind fallback of src/scripts/import/process_osm_data.py
lines 178-184. -/
def loaderGeomFallback (mapped : String) (geom_type : String) : String :=
  if mapped == "unknown" then
    if geom_type == "Point" then "point_of_interest"
    else if geom_type == "LineString" || geom_type == "MultiLineString" then "path"
    else if geom_type == "Polygon" || geom_type == "MultiPolygon" then "area"
    else "unknown"
  else mapped

/-- Final entity type assigned by src/scripts/import/process_osm_data.py
lines 158-188: rule table, geometry fallback, then coercion to
'point_of_interest' of anything outside the database-derived whitelist
(self.valid_db_entity_types). -/
def loaderFinalEntityType (valid_db_entity_types : List String) (osm_type : String)
    (props : List (String × String)) (geom_type : String) : String :=
  if valid_db_entity_types.contains (loaderGeomFallback (loaderMappedEntityType osm_type props) geom_type) then
    loaderGeomFallback (loaderMappedEntityType osm_type props) geom_type
  else "point_of_interest"

/-- The hardcoded fallback whitelist of
DatabaseConnection.get_valid_entity_types in
src/scripts/utils/database.py (line 140), used when the entity_types
table cannot be read; a concrete instantiation of the database-derived
whitelist. -/
def dbFallbackEntityTypes : List String :=
  ["region", "district", "street", "square", "park", "building", "city",
   "point_of_interest", "area", "path", "waterway", "unknown"]

/-- The closed entity-type taxonomy: every type either rule table, the
geometry fallback, or the whitelist coercion can produce, together with
'square' from the predefined whitelist. -/
def entityTypeTaxonomy : List String :=
  ["region", "district", "street", "square", "park", "building", "city",
   "point_of_interest", "area", "path", "waterway", "unknown"]

/-! ## Language/script derivation for name tags -/

/-- Language mapping of src/process_osm_data.py lines 175-179: a
function of the tag key alone, plain 'name' defaulting to Ukrainian. -/
def loaderLangCode (name_tag : String) : String :=
  if name_tag == "name:uk" then "ukr"
  else if name_tag == "name:ru" then "rus"
  else if name_tag == "name:en" then "eng"
  else if name_tag == "name" then "ukr"
  else "und"

/-- The Ukrainian-specific marker characters of src/import_osm_pbf.py
line 185. -/
def ukrainianMarkerChars : String := "іїєґІЇЄҐ"

/-- The Russian-specific marker characters of src/import_osm_pbf.py
line 186. -/
def russianMarkerChars : String := "ыЭЫ"

/-- Python `any(c in value for c in chars)`. -/
def containsAnyOf (value chars : String) : Bool :=
  chars.toList.any (fun c => value.toList.contains c)

/-- Language/script mapping of src/import_osm_pbf.py lines 181-191 (the
same code appears in src/scripts/import/process_osm_data.py lines
200-210): suffixed keys map by key, but the plain 'name' key inspects
the name value's characters. -/
def pbfLangScript (name_tag name_value : String) : String × String :=
  if name_tag == "name" then
    ((if containsAnyOf name_value ukrainianMarkerChars then "ukr"
      else if containsAnyOf name_value russianMarkerChars then "rus"
      else "ukr"), "Cyrl")
  else if name_tag == "name:uk" then ("ukr", "Cyrl")
  else if name_tag == "name:ru" then ("rus", "Cyrl")
  else if name_tag == "name:en" then ("eng", "Latn")
  else ("und", "Latn")

/-- The amended language mapping stated spec-style, for comparison with
`pbfLangScript`: recognized suffixed keys by key alone; plain 'name'
Ukrainian Cyrillic unless the value shows a Russian marker character and
no Ukrainian one; anything else undetermined with the default Latin
script. -/
def amendedPlainNameLang (name_value : String) : String :=
  if containsAnyOf name_value russianMarkerChars = true
      ∧ containsAnyOf name_value ukrainianMarkerChars = false then "rus"
  else "ukr"

def amendedLangScript (name_tag name_value : String) : String × String :=
  if name_tag == "name:uk" then ("ukr", "Cyrl")
  else if name_tag == "name:ru" then ("rus", "Cyrl")
  else if name_tag == "name:en" then ("eng", "Latn")
  else if name_tag == "name" then (amendedPlainNameLang name_value, "Cyrl")
  else ("und", "Latn")

/-! ## Conflict-aware name insertion (C3)

The name INSERT of src/scripts/import/process_osm_data.py lines 212-222
carries `ON CONFLICT (entity_id, language_code, name_type,
tstzrange(valid_start, valid_end)) WHERE txn_end IS NULL DO NOTHING`
(src/process_osm_data.py lines 195-200 targets the same rule through the
named exclusion constraint, whose purpose its comment states: ignore
inserts that would create overlapping time periods for the same name
key).  The model keeps the names table as a row list; an insert whose
key equals an existing row's key and whose validity interval overlaps
that row's is a no-op, otherwise the row is appended.  Intervals are
`[valid_start, valid_end)` with a null (none) upper bound meaning
open-ended; two intervals overlap when both are nonempty and each starts
before the other ends. -/

structure NameRow where
  entity_id : Nat
  name_text : String
  language_code : String
  name_type : String
  valid_start : Int
  valid_end : Option Int
deriving DecidableEq

/-- `x` is strictly below the (possibly open) upper bound `e`. -/
def beforeEnd (x : Int) (e : Option Int) : Bool :=
  match e with
  | none => true
  | some y => decide (x < y)

def intervalNonempty (s : Int) (e : Option Int) : Bool := beforeEnd s e

/-- tstzrange overlap (`&&`): both ranges nonempty and each lower bound
below the other range's upper bound. -/
def intervalsOverlap (s1 : Int) (e1 : Option Int) (s2 : Int) (e2 : Option Int) : Bool :=
  beforeEnd s1 e1 && beforeEnd s2 e2 && beforeEnd s1 e2 && beforeEnd s2 e1

/-- The conflict key (entity_id, language_code, name_type). -/
def sameNameKey (a b : NameRow) : Bool :=
  a.entity_id == b.entity_id && a.language_code == b.language_code && a.name_type == b.name_type

def rowsConflict (a b : NameRow) : Bool :=
  sameNameKey a b && intervalsOverlap a.valid_start a.valid_end b.valid_start b.valid_end

def conflictsWithTable (table : List NameRow) (r : NameRow) : Bool :=
  table.any (fun x => rowsConflict x r)

/-- One conflict-aware INSERT: DO NOTHING on conflict, append
otherwise. -/
def insertNameRow (table : List NameRow) (r : NameRow) : List NameRow :=
  if conflictsWithTable table r then table else table ++ [r]

/-- A load's sequence of name INSERTs. -/
def insertNameRows (table : List NameRow) (rows : List NameRow) : List NameRow :=
  rows.foldl insertNameRow table

/-! ## Resilient connection retry (C7)

src/process_osm_data.py lines 35-49 wraps get_resilient_db_connection in
tenacity retry(stop=stop_after_attempt(7), wait=wait_exponential(
multiplier=1, min=2, max=30), retry=retry_if_exception_type(
psycopg2.OperationalError)); DatabaseConnection.get_connection in
src/scripts/utils/database.py lines 31-38 uses stop_after_attempt(10),
wait_exponential(multiplier=1, min=1, max=10) and the same
OperationalError-only retry condition.  The model runs numbered attempts
against an outcome oracle: a transient (operational) error is retried
until the attempt budget is exhausted (the decorator then surfaces its
fatal retry error), any other exception is raised at once, and the wait
before retry n is the clamped exponential multiplier * 2^n, matching the
source comment "Wait 2s, 4s, 8s, 16s, 30s, 30s...". -/

inductive AttemptOutcome
  | success
  | transientError
  | nonTransientError
deriving DecidableEq

inductive RetryResult
  | ok (attemptsMade : Nat)
  | exhausted (attemptsMade : Nat)
  | raised (attemptsMade : Nat)
deriving DecidableEq

/-- The retry loop: `made` attempts already made, given remaining
budget. -/
def retryGo (oc : Nat → AttemptOutcome) : Nat → Nat → RetryResult
  | made, 0 => .exhausted made
  | made, remaining + 1 =>
    match oc (made + 1) with
    | .success => .ok (made + 1)
    | .transientError => retryGo oc (made + 1) remaining
    | .nonTransientError => .raised (made + 1)

def retryRun (maxAttempts : Nat) (oc : Nat → AttemptOutcome) : RetryResult :=
  retryGo oc 0 maxAttempts

/-- tenacity wait_exponential(multiplier, min=lo, max=hi) before the
retry that follows attempt `attempt_number`. -/
def waitExponentialClamped (multiplier lo hi attempt_number : Nat) : Nat :=
  max lo (min (multiplier * 2 ^ attempt_number) hi)

/-- stop_after_attempt(7) of get_resilient_db_connection. -/
def connectMaxAttempts : Nat := 7

/-- wait_exponential(multiplier=1, min=2, max=30) of
get_resilient_db_connection. -/
def connectWait (n : Nat) : Nat := waitExponentialClamped 1 2 30 n

/-- stop_after_attempt(10) of DatabaseConnection.get_connection. -/
def getConnectionMaxAttempts : Nat := 10

/-- wait_exponential(multiplier=1, min=1, max=10) of
DatabaseConnection.get_connection. -/
def getConnectionWait (n : Nat) : Nat := waitExponentialClamped 1 1 10 n

/-! ## Helper lemmas -/

lemma MARIUPOL_BBOX_values :
    MARIUPOL_BBOX.min_lon = 37.29 ∧ MARIUPOL_BBOX.min_lat = 47.00 ∧
    MARIUPOL_BBOX.max_lon = 37.76 ∧ MARIUPOL_BBOX.max_lat = 47.23 := by
  refine ⟨?_, ?_, ?_, ?_⟩ <;>
    · simp only [MARIUPOL_BBOX]
      rw [Rat.mk'_eq_divInt, Rat.divInt_eq_div]
      norm_num

lemma checkTimestamp_iff (target ts : Option Int) :
    checkTimestamp target ts = true ↔
      (∀ c t, target = some c → ts = some t → t ≤ c) := by
  cases target with
  | none => simp [checkTimestamp]
  | some c =>
      cases ts with
      | none => simp [checkTimestamp]
      | some t => simp [checkTimestamp]

lemma inBbox_iff (bbox : BBox) (location : Option (ℚ × ℚ)) :
    inBbox bbox location = true ↔
      (∃ lon lat, location = some (lon, lat) ∧
        bbox.min_lon ≤ lon ∧ lon ≤ bbox.max_lon ∧
        bbox.min_lat ≤ lat ∧ lat ≤ bbox.max_lat) := by
  cases location with
  | none => simp [inBbox]
  | some p =>
      cases p with
      | mk lon lat =>
          simp [inBbox, and_assoc]

/-- The two transcribed rule tables are the same function (the Python is
duplicated verbatim). -/
lemma mapped_agree (osm_type : String) (props : List (String × String)) :
    pbfMappedEntityType osm_type props = loaderMappedEntityType osm_type props := rfl

lemma fallback_agree (mapped geom_type : String) :
    pbfGeomFallback mapped geom_type = loaderGeomFallback mapped geom_type := rfl

lemma pbfMapped_mem (osm_type : String) (props : List (String × String)) :
    pbfMappedEntityType osm_type props ∈ entityTypeTaxonomy := by
  unfold pbfMappedEntityType
  repeat' split
  all_goals decide

lemma pbfFallback_mem {t : String} (geom_type : String) (h : t ∈ entityTypeTaxonomy) :
    pbfGeomFallback t geom_type ∈ entityTypeTaxonomy := by
  unfold pbfGeomFallback
  repeat' split
  all_goals first | decide | exact h

/-- For a feature matched by no rule, the geometry fallback's result is
never in the seven-type predefined whitelist. -/
lemma pbf_unknown_not_predefined (geom_type : String) :
    validPredefinedTypes.contains (pbfGeomFallback "unknown" geom_type) = false := by
  unfold pbfGeomFallback
  repeat' split
  all_goals decide

/-! ## Theorems -/

/-- C8: the temporal test accepts a comparable timestamp exactly when it
is at most the configured cutoff, and accepts every primitive when no
cutoff is configured. -/
theorem temporal_test_iff_cutoff :
    (∀ cutoff t : Int, checkTimestamp (some cutoff) (some t) = true ↔ t ≤ cutoff)
    ∧ (∀ ts : Option Int, checkTimestamp none ts = true) := by
  constructor
  · intro cutoff t
    simp [checkTimestamp]
  · intro ts
    rfl

/-- C9: an object whose timestamp cannot be converted to a comparable
datetime passes the temporal check, even when a cutoff is
configured. -/
theorem unconvertible_timestamp_accepted (cutoff : Option Int) :
    checkTimestamp cutoff none = true := by
  cases cutoff <;> rfl

/-- C1: evaluating the load loop of src/process_osm_data.py at a run in
which feature 1 succeeds, feature 2 raises during its insert sequence
and feature 3 succeeds: the final committed set contains only feature
3's writes — feature 1's writes were discarded by the rollback issued
for feature 2, because nothing had been committed before the end of the
loop.  This contradicts the per-primitive transaction boundary the
claim (and the code's own comment) describes. -/
theorem load_loop_rollback_discards_prior_features :
    committedAfterRun
        [FeatureOutcome.succeeded ["entity 1", "name 1"],
         FeatureOutcome.failed,
         FeatureOutcome.succeeded ["entity 3", "name 3"]]
      = ["entity 3", "name 3"]
    ∧ "entity 1" ∉ committedAfterRun
        [FeatureOutcome.succeeded ["entity 1", "name 1"],
         FeatureOutcome.failed,
         FeatureOutcome.succeeded ["entity 3", "name 3"]] := by
  decide

/-- C2 counterexample: a node strictly outside the bounding box whose
tag value contains the keyword "mariupol" and whose timestamp is before
the cutoff is accepted by MariupolExtractor.node, so a point failing the
spatial predicate is not rejected; and MariupolExtractor.way accepts a
way purely on the tag-keyword heuristic, with no spatial test at all. -/
theorem extractor_filter_counterexample :
    nodeAccept MARIUPOL_BBOX (some 100)
        (⟨some (0, 0), some 0, [("name", "mariupol")]⟩ : OsmObj) = true
    ∧ inBbox MARIUPOL_BBOX (some (0, 0)) = false
    ∧ wayAccept (some 100)
        (⟨none, some 0, [("name", "mariupol")]⟩ : OsmObj) = true := by
  decide

/-- C2 (amended): for nodes, the extractor's decision is the AND of the
temporal test with the OR of the spatial test and the tag-keyword
heuristic; for ways, it is the AND of the temporal test with the
tag-keyword heuristic alone — the heuristic is not reserved for
relations. -/
theorem extractor_filter_characterization (bbox : BBox) (target : Option Int) (o : OsmObj) :
    (nodeAccept bbox target o = true ↔
      TemporalOk target o ∧ (SpatialOk bbox o ∨ TagHeuristicOk o))
    ∧ (wayAccept target o = true ↔ TemporalOk target o ∧ TagHeuristicOk o) := by
  constructor
  · rw [nodeAccept, Bool.and_eq_true, Bool.or_eq_true, checkTimestamp_iff, inBbox_iff]
    rfl
  · rw [wayAccept, Bool.and_eq_true, checkTimestamp_iff]
    rfl

/-- C4: both classifiers are total functions into the closed entity-type
taxonomy: for every primitive kind, tag set, geometry kind and whitelist
they return a taxonomy member (determinism and purity hold by
construction, the classifiers being functions of their arguments). -/
theorem classifier_total_in_taxonomy (valid_types : List String) (osm_type geom_type : String)
    (props : List (String × String)) :
    loaderFinalEntityType valid_types osm_type props geom_type ∈ entityTypeTaxonomy
    ∧ pbfFinalEntityType osm_type props geom_type ∈ entityTypeTaxonomy := by
  constructor
  · unfold loaderFinalEntityType
    rw [← mapped_agree, ← fallback_agree]
    split
    · exact pbfFallback_mem geom_type (pbfMapped_mem osm_type props)
    · decide
  · unfold pbfFinalEntityType
    split
    · exact pbfFallback_mem geom_type (pbfMapped_mem osm_type props)
    · decide

/-- C5 counterexample: a named way with no classifying property and a
line geometry is matched by no rule, its geometry-kind default is
'path' (so defined), yet src/import_osm_pbf.py assigns the catch-all
'point_of_interest', because 'path' is outside the seven-type
whitelist. -/
theorem geometry_fallback_counterexample :
    pbfMappedEntityType "way" [] = "unknown"
    ∧ pbfGeomFallback "unknown" "LineString" = "path"
    ∧ pbfFinalEntityType "way" [] "LineString" = "point_of_interest" := by
  decide

/-- C5 (amended): for a feature matched by no rule, the geometry-kind
default (point to point_of_interest, line to path, area to area) is
computed, but src/import_osm_pbf.py then coerces every such default to
'point_of_interest' (none of them is in its hardcoded whitelist), while
src/scripts/import/process_osm_data.py keeps the default exactly when
the database-derived whitelist contains it. -/
theorem geometry_fallback_whitelist_characterization (valid_types : List String)
    (osm_type geom_type : String) (props : List (String × String))
    (h : loaderMappedEntityType osm_type props = "unknown") :
    pbfFinalEntityType osm_type props geom_type = "point_of_interest"
    ∧ loaderFinalEntityType valid_types osm_type props geom_type =
        (if valid_types.contains (loaderGeomFallback "unknown" geom_type) then
          loaderGeomFallback "unknown" geom_type
        else "point_of_interest") := by
  have hpbf : pbfMappedEntityType osm_type props = "unknown" := by
    rw [mapped_agree]; exact h
  constructor
  · unfold pbfFinalEntityType
    rw [hpbf, pbf_unknown_not_predefined]
    simp
  · unfold loaderFinalEntityType
    rw [h]

/-- C5 witness: instantiating the amended characterization at an
unmatched way with line geometry and the in-source database fallback
whitelist. -/
theorem geometry_fallback_whitelist_characterization_witness :
    pbfFinalEntityType "way" [] "LineString" = "point_of_interest"
    ∧ loaderFinalEntityType dbFallbackEntityTypes "way" [] "LineString" =
        (if dbFallbackEntityTypes.contains (loaderGeomFallback "unknown" "LineString") then
          loaderGeomFallback "unknown" "LineString"
        else "point_of_interest") :=
  geometry_fallback_whitelist_characterization dbFallbackEntityTypes "way" "LineString" []
    (by decide)

/-- C10 counterexample: a named way tagged waterway=river with line
geometry is classified 'point_of_interest' by src/import_osm_pbf.py
(its seven-type whitelist rejects 'waterway') but 'waterway' by
src/scripts/import/process_osm_data.py under the in-source fallback
instantiation of the database-derived whitelist: the two duplicated
routines do not compute the same entity type for every input. -/
theorem duplicate_classifier_counterexample :
    pbfFinalEntityType "way" [("waterway", "river")] "LineString" = "point_of_interest"
    ∧ loaderFinalEntityType dbFallbackEntityTypes "way" [("waterway", "river")] "LineString" = "waterway"
    ∧ pbfFinalEntityType "way" [("waterway", "river")] "LineString"
        ≠ loaderFinalEntityType dbFallbackEntityTypes "way" [("waterway", "river")] "LineString" := by
  decide

/-- C10 (amended): the two duplicated routines agree on the rule table
and geometry fallback (the pre-whitelist entity type is equal for every
input), and their final results are equal if and only if the hardcoded
seven-type whitelist and the database-derived whitelist treat that
pre-whitelist type alike (both accept or both reject it) or the type is
'point_of_interest' itself, the coercion target (then both final
results are 'point_of_interest' regardless of the whitelists). -/
theorem duplicate_classifier_agreement (valid_types : List String) (osm_type geom_type : String)
    (props : List (String × String)) :
    pbfGeomFallback (pbfMappedEntityType osm_type props) geom_type
      = loaderGeomFallback (loaderMappedEntityType osm_type props) geom_type
    ∧ (pbfFinalEntityType osm_type props geom_type
         = loaderFinalEntityType valid_types osm_type props geom_type
       ↔ (validPredefinedTypes.contains (pbfGeomFallback (pbfMappedEntityType osm_type props) geom_type)
            = valid_types.contains (loaderGeomFallback (loaderMappedEntityType osm_type props) geom_type)
          ∨ pbfGeomFallback (pbfMappedEntityType osm_type props) geom_type = "point_of_interest")) := by
  refine ⟨rfl, ?_⟩
  unfold pbfFinalEntityType loaderFinalEntityType
  rw [← mapped_agree, ← fallback_agree]
  rcases hA : validPredefinedTypes.contains (pbfGeomFallback (pbfMappedEntityType osm_type props) geom_type) <;>
    rcases hB : valid_types.contains (pbfGeomFallback (pbfMappedEntityType osm_type props) geom_type) <;>
      simp [hA, hB, eq_comm]

/-- C10 witness: on a highway way both whitelists accept 'street', and
the two routines agree. -/
theorem duplicate_classifier_agreement_witness :
    pbfFinalEntityType "way" [("highway", "primary")] "LineString"
      = loaderFinalEntityType dbFallbackEntityTypes "way" [("highway", "primary")] "LineString" :=
  (duplicate_classifier_agreement dbFallbackEntityTypes "way" "LineString"
    [("highway", "primary")]).2.mpr (Or.inl (by decide))

/-- C6 counterexample: in src/import_osm_pbf.py the plain 'name' tag's
language code depends on the name value, not on the tag key alone: a
value containing the Russian marker character is mapped to 'rus', a
plain Latin value to 'ukr'. -/
theorem plain_name_language_counterexample :
    (pbfLangScript "name" "ы").fst = "rus"
    ∧ (pbfLangScript "name" "a").fst = "ukr"
    ∧ pbfLangScript "name" "ы" ≠ pbfLangScript "name" "a" := by
  decide

/-- C6 (amended): in src/import_osm_pbf.py (and
src/scripts/import/process_osm_data.py) recognized suffixed keys map by
key alone and unrecognized keys map to the undetermined language with
the default Latin script, but the plain 'name' key maps to Ukrainian
Cyrillic unless the value contains a Russian marker character and no
Ukrainian one, in which case it maps to Russian; src/process_osm_data.py
instead derives the language from the tag key alone, plain 'name' always
Ukrainian.  For every key other than plain 'name' the two
implementations assign the same language. -/
theorem language_mapping_characterization (name_tag name_value : String) :
    pbfLangScript name_tag name_value = amendedLangScript name_tag name_value
    ∧ (name_tag ≠ "name" → (pbfLangScript name_tag name_value).fst = loaderLangCode name_tag) := by
  constructor
  · unfold pbfLangScript amendedLangScript amendedPlainNameLang
    rcases hu : containsAnyOf name_value ukrainianMarkerChars <;>
      rcases hr : containsAnyOf name_value russianMarkerChars <;>
        repeat' split <;> simp_all
  · intro hne
    unfold pbfLangScript loaderLangCode
    repeat' split
    all_goals first | rfl | simp_all

/-- C6 witness: instantiating the characterization at the 'name:uk'
key. -/
theorem language_mapping_characterization_witness :
    pbfLangScript "name:uk" "x" = amendedLangScript "name:uk" "x"
    ∧ (pbfLangScript "name:uk" "x").fst = loaderLangCode "name:uk" :=
  ⟨(language_mapping_characterization "name:uk" "x").1,
   (language_mapping_characterization "name:uk" "x").2 (by decide)⟩

/-! ## C3: proofs about conflict-aware name insertion -/

lemma mem_insertNameRow {table : List NameRow} {r x : NameRow} (h : x ∈ table) :
    x ∈ insertNameRow table r := by
  unfold insertNameRow
  split
  · exact h
  · exact List.mem_append_left _ h

lemma mem_insertNameRows {table : List NameRow} {x : NameRow} (rows : List NameRow)
    (h : x ∈ table) : x ∈ insertNameRows table rows := by
  induction rows generalizing table with
  | nil => exact h
  | cons a as ih =>
      have hstep : insertNameRows table (a :: as) = insertNameRows (insertNameRow table a) as := by
        simp [insertNameRows]
      rw [hstep]
      exact ih (mem_insertNameRow h)

lemma conflicts_of_mem {table : List NameRow} {x r : NameRow} (hx : x ∈ table)
    (hc : rowsConflict x r = true) : conflictsWithTable table r = true :=
  List.any_eq_true.mpr ⟨x, hx, hc⟩

lemma self_conflict {r : NameRow} (h : intervalNonempty r.valid_start r.valid_end = true) :
    rowsConflict r r = true := by
  unfold intervalNonempty at h
  unfold rowsConflict sameNameKey intervalsOverlap
  simp [h]

lemma conflict_mono_rows {table : List NameRow} {r : NameRow} (rows : List NameRow)
    (h : conflictsWithTable table r = true) :
    conflictsWithTable (insertNameRows table rows) r = true := by
  obtain ⟨x, hx, hc⟩ := List.any_eq_true.mp h
  exact conflicts_of_mem (mem_insertNameRows rows hx) hc

lemma step_self_conflict {table : List NameRow} {r : NameRow}
    (h : intervalNonempty r.valid_start r.valid_end = true) :
    conflictsWithTable (insertNameRow table r) r = true := by
  unfold insertNameRow
  split
  · assumption
  · exact conflicts_of_mem (List.mem_append_right _ (List.mem_singleton_self r)) (self_conflict h)

lemma inserted_conflicts :
    ∀ (rows : List NameRow) (table : List NameRow) (r : NameRow), r ∈ rows →
      intervalNonempty r.valid_start r.valid_end = true →
      conflictsWithTable (insertNameRows table rows) r = true := by
  intro rows
  induction rows with
  | nil => intro table r hr; cases hr
  | cons a as ih =>
      intro table r hr hne
      have hstep : insertNameRows table (a :: as) = insertNameRows (insertNameRow table a) as := by
        simp [insertNameRows]
      rw [hstep]
      rcases List.mem_cons.mp hr with h | h
      · subst h
        exact conflict_mono_rows as (step_self_conflict hne)
      · exact ih _ r h hne

lemma noop_of_all_conflict {base : List NameRow} :
    ∀ rows : List NameRow, (∀ r ∈ rows, conflictsWithTable base r = true) →
      insertNameRows base rows = base := by
  intro rows
  induction rows with
  | nil => intro _; rfl
  | cons a as ih =>
      intro h
      have ha : insertNameRow base a = base := by
        unfold insertNameRow
        rw [h a (List.mem_cons_self a as)]
        simp
      have hstep : insertNameRows base (a :: as) = insertNameRows (insertNameRow base a) as := by
        simp [insertNameRows]
      rw [hstep, ha]
      exact ih (fun r hr => h r (List.mem_cons_of_mem a hr))

/-- C3: a name INSERT whose key matches an existing row with an
overlapping validity interval leaves the table unchanged (silent no-op,
not an error), and replaying a whole load's sequence of name INSERTs
(every inserted interval nonempty — in the importers valid_end is null,
so every interval is) leaves the table exactly as after the first load:
no duplicate overlapping-interval name rows. -/
theorem name_insert_noop_and_idempotent :
    (∀ (table : List NameRow) (r : NameRow),
        conflictsWithTable table r = true → insertNameRow table r = table)
    ∧ (∀ (table : List NameRow) (rows : List NameRow),
        (∀ r ∈ rows, intervalNonempty r.valid_start r.valid_end = true) →
        insertNameRows (insertNameRows table rows) rows = insertNameRows table rows) := by
  constructor
  · intro table r h
    unfold insertNameRow
    rw [h]
    simp
  · intro table rows hne
    apply noop_of_all_conflict
    intro r hr
    exact inserted_conflicts rows table r hr (hne r hr)

/-- C3 witness: a conflicting insert is a no-op and a one-row load
replay changes nothing. -/
theorem name_insert_noop_and_idempotent_witness :
    insertNameRow [(⟨1, "x", "ukr", "official", 0, none⟩ : NameRow)]
        ⟨1, "y", "ukr", "official", 0, none⟩
      = [(⟨1, "x", "ukr", "official", 0, none⟩ : NameRow)]
    ∧ insertNameRows (insertNameRows [] [(⟨1, "x", "ukr", "official", 0, none⟩ : NameRow)])
        [(⟨1, "x", "ukr", "official", 0, none⟩ : NameRow)]
      = insertNameRows [] [(⟨1, "x", "ukr", "official", 0, none⟩ : NameRow)] :=
  ⟨name_insert_noop_and_idempotent.1 _ _ (by decide),
   name_insert_noop_and_idempotent.2 _ _ (by decide)⟩

/-! ## C7: proofs about the retry policy -/

lemma retryGo_all_transient (oc : Nat → AttemptOutcome)
    (h : ∀ k, oc k = AttemptOutcome.transientError) :
    ∀ (remaining made : Nat), retryGo oc made remaining = RetryResult.exhausted (made + remaining) := by
  intro remaining
  induction remaining with
  | zero => intro made; simp [retryGo]
  | succ r ih =>
      intro made
      rw [retryGo, h (made + 1), ih (made + 1)]
      have heq : made + 1 + r = made + (r + 1) := by omega
      rw [heq]

lemma retryGo_raised (oc : Nat → AttemptOutcome) :
    ∀ (k made remaining : Nat),
      (∀ j, made < j → j ≤ made + k → oc j = AttemptOutcome.transientError) →
      oc (made + k + 1) = AttemptOutcome.nonTransientError →
      made + k + 1 ≤ made + remaining →
      retryGo oc made remaining = RetryResult.raised (made + k + 1) := by
  intro k
  induction k with
  | zero =>
      intro made remaining htr hnt hle
      cases remaining with
      | zero => omega
      | succ r =>
          rw [retryGo]
          simp only [Nat.add_zero] at hnt ⊢
          rw [hnt]
  | succ kk ih =>
      intro made remaining htr hnt hle
      cases remaining with
      | zero => omega
      | succ r =>
          have h1 : oc (made + 1) = AttemptOutcome.transientError :=
            htr (made + 1) (by omega) (by omega)
          rw [retryGo, h1]
          have h2 := ih (made + 1) r
            (fun j hj1 hj2 => htr j (by omega) (by omega))
            (by have heq : made + 1 + kk + 1 = made + (kk + 1) + 1 := by omega
                rw [heq]; exact hnt)
            (by omega)
          rw [h2]
          have heq2 : made + 1 + kk + 1 = made + (kk + 1) + 1 := by omega
          rw [heq2]

/-- C7: the configured connection-retry policies give up after exactly
the configured maximum number of attempts (7 for
get_resilient_db_connection, 10 for DatabaseConnection.get_connection)
and surface a fatal result when every attempt fails with a transient
operational error; a non-transient error is never retried and is raised
at the attempt where it occurs; and the backoff is the clamped
exponential of the source comment (2s, 4s, 8s, 16s, then capped at
30s), never exceeding the configured maximum delay. -/
theorem retry_policy_correct :
    (∀ oc : Nat → AttemptOutcome, (∀ k, oc k = AttemptOutcome.transientError) →
        retryRun connectMaxAttempts oc = RetryResult.exhausted 7
        ∧ retryRun getConnectionMaxAttempts oc = RetryResult.exhausted 10)
    ∧ (∀ (oc : Nat → AttemptOutcome) (m k : Nat), k + 1 ≤ m →
        (∀ j, 1 ≤ j → j ≤ k → oc j = AttemptOutcome.transientError) →
        oc (k + 1) = AttemptOutcome.nonTransientError →
        retryRun m oc = RetryResult.raised (k + 1))
    ∧ (∀ n, connectWait n ≤ 30)
    ∧ (∀ n, getConnectionWait n ≤ 10)
    ∧ connectWait 1 = 2 ∧ connectWait 2 = 4 ∧ connectWait 3 = 8
    ∧ connectWait 4 = 16 ∧ connectWait 5 = 30 ∧ connectWait 6 = 30 := by
  refine ⟨?_, ?_, ?_, ?_, by decide, by decide, by decide, by decide, by decide, by decide⟩
  · intro oc h
    constructor
    · have := retryGo_all_transient oc h 7 0
      simpa [retryRun, connectMaxAttempts] using this
    · have := retryGo_all_transient oc h 10 0
      simpa [retryRun, getConnectionMaxAttempts] using this
  · intro oc m k hkm htr hnt
    have := retryGo_raised oc k 0 m
      (fun j hj1 hj2 => htr j (by omega) (by omega))
      (by simpa using hnt)
      (by omega)
    simpa [retryRun] using this
  · intro n
    unfold connectWait waitExponentialClamped
    exact Nat.max_le.mpr ⟨by norm_num, le_trans (Nat.min_le_right _ _) (by norm_num)⟩
  · intro n
    unfold getConnectionWait waitExponentialClamped
    exact Nat.max_le.mpr ⟨by norm_num, le_trans (Nat.min_le_right _ _) (by norm_num)⟩

/-- C7 witness: seven all-transient attempts exhaust the
get_resilient_db_connection budget, and a non-transient error at the
second attempt is raised there with no further attempts. -/
theorem retry_policy_correct_witness :
    retryRun connectMaxAttempts (fun _ => AttemptOutcome.transientError)
      = RetryResult.exhausted 7
    ∧ retryRun connectMaxAttempts
        (fun j => if j = 1 then AttemptOutcome.transientError else AttemptOutcome.nonTransientError)
      = RetryResult.raised 2 :=
  ⟨(retry_policy_correct.1 (fun _ => AttemptOutcome.transientError) (fun _ => rfl)).1,
   retry_policy_correct.2.1 _ connectMaxAttempts 1 (by decide)
     (fun j h1 h2 => by
       have hj : j = 1 := le_antisymm h2 h1
       subst hj
       rfl)
     (by decide)⟩
